import Mathlib

/-!
# Verification of the ReportView component

Shallow embedding of `src/frontend/src/components/ReportView.js`: a React
component that renders a dataset-analysis report as a dashboard with four
panels (summary, column-type table, dropped-columns list, feature-importance
chart), or an empty-state message when no report is present.

Modelling choices:
* JS objects with possibly-missing fields become a record of `Option` fields
  (destructuring a missing field yields `undefined`, modelled as `none`).
* JS mappings (`column_types`, `missing_counts`) become association lists in
  key order; `Object.keys` is the list of first components.
* JS numbers are carried as `Int`: the component performs no arithmetic on
  any number, it only moves values verbatim, so the carrier is irrelevant.
* A thrown `TypeError` during render (e.g. `undefined.length`) aborts the
  whole component output; rendering is therefore `Except RenderError`.
* The component's props value `report` may be any JS value; `ReportInput`
  covers the primitive cases needed to model the `!report` truthiness guard.
-/

/-- One item of `model_metrics.feature_importances`. -/
structure FeatureItem where
  feature : String
  importance : Int
  deriving Repr, DecidableEq

/-- The `model_metrics` sub-record of a report. -/
structure ModelMetrics where
  feature_importances : Option (List FeatureItem)
  deriving Repr, DecidableEq

/-- The report object, with every field optional: destructuring a JS object
never faults, a missing field simply reads as `undefined` (`none`). -/
structure Report where
  cleaned_path : Option String
  column_types : Option (List (String × String))
  columns : Option Int
  datetime_columns : Option (List String)
  detected_target : Option String
  dropped_columns : Option (List String)
  missing_counts : Option (List (String × Int))
  model_metrics : Option ModelMetrics
  model_path : Option String
  rows : Option Int
  deriving Repr, DecidableEq

/-- The `report` prop as an arbitrary JS value, as far as the component can
observe it: `null`, `undefined`, numbers (with `NaN` separate), strings,
booleans, or a report object. -/
inductive ReportInput where
  | jsNull
  | jsUndefined
  | jsNum (n : Int)
  | jsNaN
  | jsStr (s : String)
  | jsBool (b : Bool)
  | obj (r : Report)
  deriving Repr, DecidableEq

/-- JS truthiness of the `report` prop, as tested by `if (!report)`. -/
def truthy : ReportInput → Bool
  | .jsNull => false
  | .jsUndefined => false
  | .jsNum n => n != 0
  | .jsNaN => false
  | .jsStr s => s != ""
  | .jsBool b => b
  | .obj _ => true

/-- Destructuring `const { ... } = report`: on a report object this reads the
fields; on any primitive, property access yields `undefined` for every field
(none of the field names collides with a primitive's own properties). -/
def fieldsOf : ReportInput → Report
  | .obj r => r
  | _ => ⟨none, none, none, none, none, none, none, none, none, none⟩

/-- One point of the derived chart series `featureData`. -/
structure FeaturePoint where
  name : String
  importance : Int
  deriving Repr, DecidableEq

/-- `model_metrics?.feature_importances?.map(item => ({name: item.feature,
importance: item.importance})) || []`: optional chaining short-circuits to
`undefined` (hence `[]` via `||`) when either level is absent; a produced
array, even empty, is truthy, so `||` keeps it. -/
def featureData : Option ModelMetrics → List FeaturePoint
  | none => []
  | some mm =>
    match mm.feature_importances with
    | none => []
    | some fis => fis.map (fun item => ⟨item.feature, item.importance⟩)

/-- A thrown JS fault during render. -/
inductive RenderError where
  | typeError (msg : String)
  deriving Repr, DecidableEq

/-- Association-list lookup, string values (`column_types[col]`). -/
def lookupStr (m : List (String × String)) (k : String) : Option String :=
  (m.find? (fun p => p.1 == k)).map (fun p => p.2)

/-- Association-list lookup, integer values (`missing_counts[col]`). -/
def lookupInt (m : List (String × Int)) (k : String) : Option Int :=
  (m.find? (fun p => p.1 == k)).map (fun p => p.2)

/-- One `<tr>` of the column-type table: name cell, type cell, missing-count
cell; an `Option` cell renders as blank when `none` (React renders
`undefined` as nothing). -/
structure ColumnRow where
  name : String
  typeLabel : Option String
  missing : Option Int
  deriving Repr, DecidableEq

/-- The rows produced when both mappings are available: one row per key of
`column_types`, in key order, cells looked up by that key. -/
def columnRowsOk (ct : List (String × String)) (mc : List (String × Int)) :
    List ColumnRow :=
  (ct.map Prod.fst).map (fun col => ⟨col, lookupStr ct col, lookupInt mc col⟩)

/-- The body of `Object.keys(column_types).map(col => <tr>...</tr>)` over a
given key list. The callback reads `missing_counts[col]`; when
`missing_counts` is `undefined` that access throws at the first element —
but with zero keys the callback never runs, so no fault occurs. -/
def tableRows (mcOpt : Option (List (String × Int)))
    (ct : List (String × String)) :
    List String → Except RenderError (List ColumnRow)
  | [] => .ok []
  | col :: rest =>
    match mcOpt with
    | none => .error (.typeError "missing_counts is undefined")
    | some mc =>
      match tableRows mcOpt ct rest with
      | .ok rs => .ok (⟨col, lookupStr ct col, lookupInt mc col⟩ :: rs)
      | .error e => .error e

/-- The column-type table: `Object.keys(column_types)` throws when
`column_types` is `undefined`; otherwise one row per key via `tableRows`. -/
def renderColumnTable (ctOpt : Option (List (String × String)))
    (mcOpt : Option (List (String × Int))) :
    Except RenderError (List ColumnRow) :=
  match ctOpt with
  | none => .error (.typeError "column_types is undefined")
  | some ct => tableRows mcOpt ct (ct.map Prod.fst)

/-- The fixed affirmation text of the dropped-columns panel. -/
def droppedAffirmation : String := "No columns dropped ✅"

/-- The dropped-columns panel content: an ordered list of names, or the
fixed affirmation message. -/
inductive DroppedPanel where
  | list (items : List String)
  | affirmation (msg : String)
  deriving Repr, DecidableEq

/-- `dropped_columns.length > 0 ? <ul>...</ul> : <p>No columns dropped</p>`:
reading `.length` of `undefined` throws; no defensive default is applied. -/
def renderDropped : Option (List String) → Except RenderError DroppedPanel
  | none => .error (.typeError "dropped_columns is undefined")
  | some ds =>
    .ok (if ds.length > 0 then .list ds else .affirmation droppedAffirmation)

/-- The summary panel: each field is interpolated verbatim;
`detected_target || "None"` falls back exactly when the value is falsy
(absent or the empty string). -/
structure SummaryPanel where
  rowsText : Option Int
  columnsText : Option Int
  detectedTargetText : String
  cleanedPathText : Option String
  modelPathText : Option String
  deriving Repr, DecidableEq

/-- Builds the summary panel from the destructured fields. -/
def renderSummary (r : Report) : SummaryPanel :=
  { rowsText := r.rows
    columnsText := r.columns
    detectedTargetText :=
      match r.detected_target with
      | none => "None"
      | some s => if s == "" then "None" else s
    cleanedPathText := r.cleaned_path
    modelPathText := r.model_path }

/-- `{featureData.length > 0 && <Card>...</Card>}`: the chart panel is
present, carrying the series, exactly when the series is nonempty. -/
def chartView (fd : List FeaturePoint) : Option (List FeaturePoint) :=
  if fd.length > 0 then some fd else none

/-- The dashboard rendered for a present report: the four panels in order;
`chart = none` means the chart panel is omitted from the tree. -/
structure HasReportView where
  summary : SummaryPanel
  columnTable : List ColumnRow
  dropped : DroppedPanel
  chart : Option (List FeaturePoint)
  deriving Repr, DecidableEq

/-- The message of the empty-state view. -/
def emptyStateMessage : String :=
  "No report data available yet. Upload a dataset first!"

/-- The component's output: the empty-state view or the dashboard. -/
inductive Rendered where
  | emptyState (msg : String)
  | dashboard (v : HasReportView)
  deriving Repr, DecidableEq

/-- The `ReportView` component. Guard first (`if (!report) return ...`);
then destructure, build `featureData`, and evaluate the JSX tree in document
order: the column table's faults (if any) surface before the dropped-columns
panel's, and a fault aborts the whole output. -/
def ReportView (input : ReportInput) : Except RenderError Rendered :=
  if truthy input then
    match renderColumnTable (fieldsOf input).column_types
        (fieldsOf input).missing_counts with
    | .error e => .error e
    | .ok table =>
      match renderDropped (fieldsOf input).dropped_columns with
      | .error e => .error e
      | .ok dropped =>
        .ok (.dashboard
          { summary := renderSummary (fieldsOf input)
            columnTable := table
            dropped := dropped
            chart := chartView (featureData (fieldsOf input).model_metrics) })
  else
    .ok (.emptyState emptyStateMessage)

/-! ## Helper lemmas -/

/-- With `missing_counts` present, the table body never faults: every key
produces its row. -/
theorem tableRows_some (mc : List (String × Int)) (ct : List (String × String)) :
    ∀ keys : List String,
      tableRows (some mc) ct keys =
        .ok (keys.map (fun col => ⟨col, lookupStr ct col, lookupInt mc col⟩)) := by
  intro keys
  induction keys with
  | nil => rfl
  | cons col rest ih => simp [tableRows, ih]

/-- With both mappings present, the column-type table renders `columnRowsOk`. -/
theorem renderColumnTable_some (ct : List (String × String))
    (mc : List (String × Int)) :
    renderColumnTable (some ct) (some mc) = .ok (columnRowsOk ct mc) := by
  simp [renderColumnTable, tableRows_some, columnRowsOk]

/-- Full description of the dashboard rendered for a report whose
`column_types`, `missing_counts` and `dropped_columns` are all present. -/
theorem reportView_obj_eq (r : Report) (ct : List (String × String))
    (mc : List (String × Int)) (ds : List String)
    (hct : r.column_types = some ct) (hmc : r.missing_counts = some mc)
    (hds : r.dropped_columns = some ds) :
    ReportView (.obj r) = .ok (.dashboard
      { summary := renderSummary r
        columnTable := columnRowsOk ct mc
        dropped := if ds.length > 0 then DroppedPanel.list ds
                   else DroppedPanel.affirmation droppedAffirmation
        chart := chartView (featureData r.model_metrics) }) := by
  unfold ReportView
  simp only [truthy, fieldsOf, if_true, hct, hmc, hds,
    renderColumnTable_some, renderDropped]

/-- Inversion: whenever rendering a report object yields a dashboard, its
summary and chart are computed from the current report's fields. -/
theorem reportView_obj_inv (r : Report) (v : HasReportView)
    (h : ReportView (.obj r) = .ok (.dashboard v)) :
    v.summary = renderSummary r ∧
    v.chart = chartView (featureData r.model_metrics) := by
  revert h
  unfold ReportView
  simp only [truthy, fieldsOf, if_true]
  cases renderColumnTable r.column_types r.missing_counts with
  | error e => intro h; exact absurd h (by simp)
  | ok table =>
    cases renderDropped r.dropped_columns with
    | error e => intro h; exact absurd h (by simp)
    | ok dropped =>
      intro h
      have h' := h
      simp only [Except.ok.injEq, Rendered.dashboard.injEq] at h'
      rw [← h']
      exact ⟨rfl, rfl⟩

/-! ## Sample inputs used by the witnesses -/

/-- A fully-formed report with every field present and no model metrics. -/
def baseReport : Report :=
  { cleaned_path := some "cleaned.csv"
    column_types := some [("age", "int64")]
    columns := some 5
    datetime_columns := none
    detected_target := some "target"
    dropped_columns := some []
    missing_counts := some [("age", 0)]
    model_metrics := none
    model_path := some "model.pkl"
    rows := some 100 }

/-- A report with two feature-importance items. -/
def metricsReport : Report :=
  { baseReport with
    model_metrics := some ⟨some [⟨"a", 3⟩, ⟨"b", 9⟩]⟩ }

/-- A report whose `dropped_columns` field is absent. -/
def noDroppedReport : Report :=
  { baseReport with dropped_columns := none }

/-- A report with two typed columns, one of which has no missing-count
entry, and zero rows. -/
def partialCountsReport : Report :=
  { baseReport with
    column_types := some [("age", "int64"), ("city", "object")]
    missing_counts := some [("age", 0)]
    rows := some 0 }

/-- A report with two dropped columns. -/
def twoDroppedReport : Report :=
  { baseReport with dropped_columns := some ["id", "notes"] }

/-- A report with no detected target and absent paths. -/
def sparseReport : Report :=
  { baseReport with
    detected_target := none
    cleaned_path := none
    model_path := none }

/-! ## Claims -/

/-- C1: for every present report whose `model_metrics.feature_importances`
is a present sequence, `featureData` maps each `{feature, importance}` item
to `{name, importance}`, has the same length as the input, preserves source
order and importance values (the item at every index is the translated
source item at that index), and is empty when `model_metrics` is absent. -/
theorem c1_featureSeries_faithful (r : Report) (mm : ModelMetrics)
    (fis : List FeatureItem)
    (hmm : r.model_metrics = some mm)
    (hfi : mm.feature_importances = some fis) :
    featureData r.model_metrics
        = fis.map (fun item => ⟨item.feature, item.importance⟩) ∧
    (featureData r.model_metrics).length = fis.length ∧
    (∀ j : Nat, (featureData r.model_metrics)[j]?
        = (fis[j]?).map (fun item => ⟨item.feature, item.importance⟩)) ∧
    featureData none = [] := by
  rw [hmm]
  refine ⟨by simp [featureData, hfi], by simp [featureData, hfi], ?_, rfl⟩
  intro j
  simp [featureData, hfi, List.getElem?_map]

/-- C1 witness: the feature series of a concrete report with two items. -/
theorem c1_featureSeries_faithful_witness :
    featureData metricsReport.model_metrics
        = ([⟨"a", 3⟩, ⟨"b", 9⟩] : List FeatureItem).map
            (fun item => ⟨item.feature, item.importance⟩) ∧
    (featureData metricsReport.model_metrics).length
        = ([⟨"a", 3⟩, ⟨"b", 9⟩] : List FeatureItem).length ∧
    (∀ j : Nat, (featureData metricsReport.model_metrics)[j]?
        = ((([⟨"a", 3⟩, ⟨"b", 9⟩] : List FeatureItem))[j]?).map
            (fun item => ⟨item.feature, item.importance⟩)) ∧
    featureData none = [] :=
  c1_featureSeries_faithful metricsReport ⟨some [⟨"a", 3⟩, ⟨"b", 9⟩]⟩
    [⟨"a", 3⟩, ⟨"b", 9⟩] rfl rfl

/-- C2: for both absent report inputs (`null` and `undefined`), the output
is exactly the empty-state view — no dashboard, no panels. -/
theorem c2_absent_report_empty_state :
    ReportView .jsNull = .ok (.emptyState emptyStateMessage) ∧
    ReportView .jsUndefined = .ok (.emptyState emptyStateMessage) :=
  ⟨rfl, rfl⟩

/-- C3: whenever a report object renders to a dashboard, the chart panel is
present (carrying the derived series) exactly when the derived series is
nonempty, and omitted when it is empty. -/
theorem c3_chart_gated_by_series (r : Report) (v : HasReportView)
    (h : ReportView (.obj r) = .ok (.dashboard v)) :
    ((featureData r.model_metrics).length > 0 →
        v.chart = some (featureData r.model_metrics)) ∧
    ((featureData r.model_metrics).length = 0 → v.chart = none) := by
  have hc := (reportView_obj_inv r v h).2
  constructor
  · intro hpos
    rw [hc]
    simp [chartView, hpos]
  · intro hzero
    rw [hc]
    simp [chartView, hzero]

/-- C3 witness: a concrete report with a one-item series renders the chart
panel carrying that series; rendering it indeed yields a dashboard. -/
theorem c3_chart_gated_by_series_witness :
    ReportView (.obj metricsReport) = .ok (.dashboard
      { summary := renderSummary metricsReport
        columnTable := columnRowsOk [("age", "int64")] [("age", 0)]
        dropped := .affirmation droppedAffirmation
        chart := some [⟨"a", 3⟩, ⟨"b", 9⟩] }) ∧
    ((featureData metricsReport.model_metrics).length > 0 →
        ({ summary := renderSummary metricsReport
           columnTable := columnRowsOk [("age", "int64")] [("age", 0)]
           dropped := .affirmation droppedAffirmation
           chart := some [⟨"a", 3⟩, ⟨"b", 9⟩] } : HasReportView).chart
          = some (featureData metricsReport.model_metrics)) :=
  ⟨rfl, fun hpos =>
    (c3_chart_gated_by_series metricsReport _ rfl).1 hpos⟩

/-- C4 counterexample: a concrete present report lacking `dropped_columns`
makes the render throw a `TypeError` instead of completing with the
"no columns dropped" affirmation, refuting the claimed defensive default. -/
theorem c4_counterexample :
    noDroppedReport.dropped_columns = none ∧
    ReportView (.obj noDroppedReport)
      = .error (.typeError "dropped_columns is undefined") :=
  ⟨rfl, rfl⟩

/-- C4 (amended): for every present report in which `dropped_columns` is
absent and the column table itself renders, the render does NOT default the
field to an empty sequence: it propagates a `TypeError` fault, and no
affirmation message is produced. -/
theorem c4_absent_dropped_faults (r : Report) (table : List ColumnRow)
    (hds : r.dropped_columns = none)
    (htable : renderColumnTable r.column_types r.missing_counts = .ok table) :
    ReportView (.obj r) = .error (.typeError "dropped_columns is undefined") := by
  unfold ReportView
  simp only [truthy, fieldsOf, if_true, htable, hds, renderDropped]

/-- C4 witness: the amended fault behaviour at the concrete report. -/
theorem c4_absent_dropped_faults_witness :
    noDroppedReport.dropped_columns = none ∧
    renderColumnTable noDroppedReport.column_types noDroppedReport.missing_counts
      = .ok (columnRowsOk [("age", "int64")] [("age", 0)]) ∧
    ReportView (.obj noDroppedReport)
      = .error (.typeError "dropped_columns is undefined") :=
  ⟨rfl, rfl,
    c4_absent_dropped_faults noDroppedReport
      (columnRowsOk [("age", "int64")] [("age", 0)]) rfl rfl⟩

/-- C5: for every present report (with the three eagerly-read collection
fields present so the render completes), the column-type table has exactly
one row per key of `column_types`, in the mapping's key order as provided
(not re-sorted), whatever the values of the other fields such as `rows` and
`columns`. -/
theorem c5_table_rows_in_key_order (r : Report) (ct : List (String × String))
    (mc : List (String × Int)) (ds : List String)
    (hct : r.column_types = some ct) (hmc : r.missing_counts = some mc)
    (hds : r.dropped_columns = some ds) :
    ∃ v : HasReportView, ReportView (.obj r) = .ok (.dashboard v) ∧
      v.columnTable.map ColumnRow.name = ct.map Prod.fst ∧
      v.columnTable.length = ct.length := by
  refine ⟨_, reportView_obj_eq r ct mc ds hct hmc hds, ?_, ?_⟩
  · simp [columnRowsOk, List.map_map]
  · simp [columnRowsOk]

/-- C5 witness: a concrete two-column report with `rows = 0` renders a
two-row table in key order. -/
theorem c5_table_rows_in_key_order_witness :
    ∃ v : HasReportView,
      ReportView (.obj partialCountsReport) = .ok (.dashboard v) ∧
      v.columnTable.map ColumnRow.name
        = ([("age", "int64"), ("city", "object")]
            : List (String × String)).map Prod.fst ∧
      v.columnTable.length
        = ([("age", "int64"), ("city", "object")]
            : List (String × String)).length :=
  c5_table_rows_in_key_order partialCountsReport _ _ _ rfl rfl rfl

/-- C6: for every present report with a present `missing_counts` mapping,
a key of `column_types` that is absent from `missing_counts` still yields
its table row, with a blank (`none`) missing-count cell, and the render
completes as a dashboard (no fault, no other panel aborted). -/
theorem c6_missing_key_blank_cell (r : Report) (ct : List (String × String))
    (mc : List (String × Int)) (ds : List String) (col : String)
    (hct : r.column_types = some ct) (hmc : r.missing_counts = some mc)
    (hds : r.dropped_columns = some ds)
    (hkey : col ∈ ct.map Prod.fst) (habs : lookupInt mc col = none) :
    ∃ v : HasReportView, ReportView (.obj r) = .ok (.dashboard v) ∧
      (⟨col, lookupStr ct col, none⟩ : ColumnRow) ∈ v.columnTable := by
  refine ⟨_, reportView_obj_eq r ct mc ds hct hmc hds, ?_⟩
  show (⟨col, lookupStr ct col, none⟩ : ColumnRow) ∈ columnRowsOk ct mc
  unfold columnRowsOk
  rw [List.mem_map]
  exact ⟨col, hkey, by rw [habs]⟩

/-- C6 witness: in the concrete report, "city" has a type but no
missing-count entry; its row renders with a blank cell. -/
theorem c6_missing_key_blank_cell_witness :
    ∃ v : HasReportView,
      ReportView (.obj partialCountsReport) = .ok (.dashboard v) ∧
      (⟨"city", lookupStr [("age", "int64"), ("city", "object")] "city", none⟩
          : ColumnRow) ∈ v.columnTable :=
  c6_missing_key_blank_cell partialCountsReport _ _ _ "city"
    rfl rfl rfl (by decide) (by decide)

/-- C7: for every present report whose render completes, an empty
`dropped_columns` sequence yields the fixed affirmation message, and a
nonempty one yields the list of exactly those names in input order. -/
theorem c7_dropped_panel_contract (r : Report) (ct : List (String × String))
    (mc : List (String × Int)) (ds : List String)
    (hct : r.column_types = some ct) (hmc : r.missing_counts = some mc)
    (hds : r.dropped_columns = some ds) :
    ∃ v : HasReportView, ReportView (.obj r) = .ok (.dashboard v) ∧
      (ds.length = 0 → v.dropped = .affirmation droppedAffirmation) ∧
      (ds.length ≥ 1 → v.dropped = .list ds) := by
  refine ⟨_, reportView_obj_eq r ct mc ds hct hmc hds, ?_, ?_⟩
  · intro h0
    simp [h0]
  · intro h1
    have hpos : ds.length > 0 := h1
    simp [hpos]

/-- C7 witness: the affirmation for an empty sequence and the two-item list
(in input order) for `["id", "notes"]`. -/
theorem c7_dropped_panel_contract_witness :
    (∃ v : HasReportView, ReportView (.obj baseReport) = .ok (.dashboard v) ∧
      (([] : List String).length = 0 →
        v.dropped = .affirmation droppedAffirmation) ∧
      (([] : List String).length ≥ 1 → v.dropped = .list [])) ∧
    (∃ v : HasReportView,
      ReportView (.obj twoDroppedReport) = .ok (.dashboard v) ∧
      ((["id", "notes"] : List String).length = 0 →
        v.dropped = .affirmation droppedAffirmation) ∧
      ((["id", "notes"] : List String).length ≥ 1 →
        v.dropped = .list ["id", "notes"])) :=
  ⟨c7_dropped_panel_contract baseReport _ _ _ rfl rfl rfl,
   c7_dropped_panel_contract twoDroppedReport _ _ _ rfl rfl rfl⟩

/-- C8: for every present report whose render completes, the summary panel
is present and shows `rows`, `columns`, `cleaned_path`, `model_path`
verbatim (absent ones as blank `none`), shows `detected_target` verbatim
when present and truthy, and shows the literal "None" when it is absent or
falsy (the empty string). -/
theorem c8_summary_verbatim (r : Report) (ct : List (String × String))
    (mc : List (String × Int)) (ds : List String)
    (hct : r.column_types = some ct) (hmc : r.missing_counts = some mc)
    (hds : r.dropped_columns = some ds) :
    ∃ v : HasReportView, ReportView (.obj r) = .ok (.dashboard v) ∧
      v.summary.rowsText = r.rows ∧
      v.summary.columnsText = r.columns ∧
      v.summary.cleanedPathText = r.cleaned_path ∧
      v.summary.modelPathText = r.model_path ∧
      (∀ s : String, r.detected_target = some s → s ≠ "" →
        v.summary.detectedTargetText = s) ∧
      ((r.detected_target = none ∨ r.detected_target = some "") →
        v.summary.detectedTargetText = "None") := by
  refine ⟨_, reportView_obj_eq r ct mc ds hct hmc hds,
    rfl, rfl, rfl, rfl, ?_, ?_⟩
  · intro s hs hne
    simp [renderSummary, hs, hne]
  · rintro (h | h) <;> simp [renderSummary, h]

/-- C8 witness: the sparse report (no target, no paths) shows the "None"
fallback and blank path fields, with `rows` and `columns` verbatim. -/
theorem c8_summary_verbatim_witness :
    ∃ v : HasReportView, ReportView (.obj sparseReport) = .ok (.dashboard v) ∧
      v.summary.rowsText = sparseReport.rows ∧
      v.summary.columnsText = sparseReport.columns ∧
      v.summary.cleanedPathText = sparseReport.cleaned_path ∧
      v.summary.modelPathText = sparseReport.model_path ∧
      (∀ s : String, sparseReport.detected_target = some s → s ≠ "" →
        v.summary.detectedTargetText = s) ∧
      ((sparseReport.detected_target = none ∨
          sparseReport.detected_target = some "") →
        v.summary.detectedTargetText = "None") :=
  c8_summary_verbatim sparseReport _ _ _ rfl rfl rfl

/-- C9: rendering is a pure function of the current report value: equal
inputs render identically, and any dashboard produced from a report object
carries a chart series and summary recomputed from that report's fields
(no cached or mutated state can intervene — the output is fully determined
by the input). -/
theorem c9_render_pure (i j : ReportInput) (h : i = j) :
    ReportView i = ReportView j ∧
    (∀ (r : Report) (v : HasReportView),
      ReportView (.obj r) = .ok (.dashboard v) →
      v.chart = chartView (featureData r.model_metrics) ∧
      v.summary = renderSummary r) := by
  refine ⟨by rw [h], ?_⟩
  intro r v hv
  obtain ⟨h1, h2⟩ := reportView_obj_inv r v hv
  exact ⟨h2, h1⟩

/-- C9 witness: purity instantiated at a concrete report, whose dashboard's
chart and summary equal the fresh recomputation from that report. -/
theorem c9_render_pure_witness :
    ReportView (.obj baseReport) = ReportView (.obj baseReport) ∧
    (({ summary := renderSummary baseReport
        columnTable := columnRowsOk [("age", "int64")] [("age", 0)]
        dropped := .affirmation droppedAffirmation
        chart := none } : HasReportView).chart
          = chartView (featureData baseReport.model_metrics) ∧
     ({ summary := renderSummary baseReport
        columnTable := columnRowsOk [("age", "int64")] [("age", 0)]
        dropped := .affirmation droppedAffirmation
        chart := none } : HasReportView).summary
          = renderSummary baseReport) :=
  ⟨(c9_render_pure (.obj baseReport) (.obj baseReport) rfl).1,
   (c9_render_pure (.obj baseReport) (.obj baseReport) rfl).2 baseReport _ rfl⟩

/-- C10: the guard is a truthiness test, not a null test: every falsy
report value (null, undefined, 0, NaN, the empty string, false) produces
exactly the empty-state view. -/
theorem c10_falsy_guard (i : ReportInput) (h : truthy i = false) :
    ReportView i = .ok (.emptyState emptyStateMessage) := by
  simp [ReportView, h]

/-- C10 witness: the falsy non-null primitives 0, "", and false each render
the empty-state view. -/
theorem c10_falsy_guard_witness :
    truthy (.jsNum 0) = false ∧
    ReportView (.jsNum 0) = .ok (.emptyState emptyStateMessage) ∧
    truthy (.jsStr "") = false ∧
    ReportView (.jsStr "") = .ok (.emptyState emptyStateMessage) ∧
    truthy (.jsBool false) = false ∧
    ReportView (.jsBool false) = .ok (.emptyState emptyStateMessage) :=
  ⟨rfl, c10_falsy_guard (.jsNum 0) rfl,
   rfl, c10_falsy_guard (.jsStr "") rfl,
   rfl, c10_falsy_guard (.jsBool false) rfl⟩
